import Mathlib

/-!
Verification development for the serveradmin dataset core: the filter
algebra (`serveradmin/dataset/filters.py`) and the query compiler
(`serveradmin/dataset/__init__.py`).  Python classes become an inductive
`Filter`; each class's `as_sql_expr`, `matches`, `from_obj` and `__eq__`
methods become Lean functions over that inductive.  Python exceptions are
modelled by an explicit error type `PyErr`, and the mutable alias counter
of the query builder is threaded as an explicit natural number.
-/

namespace Serveradmin

/-- The Python exception kinds the embedded code can raise. -/
inductive PyErr where
  | valueError (msg : String)
  | typeError (msg : String)
  | indexError (msg : String)
  | attributeError (msg : String)
deriving DecidableEq, Repr

/-- Raw Python values as they appear as filter operands and wire-object
leaves: strings, integers, booleans, IP addresses (the `adminapi` `IP`
class, an `int` subclass holding the numeric address), plus JSON-style
lists and dicts (string-keyed). -/
inductive Value where
  | str (s : String)
  | int (n : Int)
  | bool (b : Bool)
  | ip (n : Nat)
  | list (xs : List Value)
  | dict (fields : List (String × Value))

/-- An `ipaddress` network object, reduced to the two attributes the
source reads in `InsideNetwork.as_sql_expr`: `network_address` and
`broadcast_address`, both as integers. -/
structure Network where
  network_address : Nat
  broadcast_address : Nat
deriving DecidableEq, Repr

/-- The attribute descriptor fields read by the compile methods:
`attr_obj.name`, `attr_obj.type`, `attr_obj.multi`, `attr_obj.attrib_id`. -/
structure AttrObj where
  name : String
  type : String
  multi : Bool
  attrib_id : Nat
deriving DecidableEq, Repr

/-- One entry of `lookups.stype_ids` (a servertype with primary key and
name), used by the `servertype` special cases of `Regexp` and
`Startswith`. -/
structure Stype where
  pk : Nat
  name : String
deriving DecidableEq, Repr

/-- The part of the global `lookups` object the filter compiler reads. -/
structure Lookups where
  stype_ids : List Stype
deriving DecidableEq, Repr

/-- The filter expression tree: one constructor per `BaseFilter`
subclass in `filters.py`.  `privateIP` and `publicIP` carry no operands;
their `__init__` methods compute a fixed delegate filter, which the
compile function expands in place. -/
inductive Filter where
  | exactMatch (value : Value)
  | regexp (pattern : String)
  | comparison (comparator : String) (value : Value)
  | anyF (values : List Value)
  | andF (filters : List Filter)
  | orF (filters : List Filter)
  | between (a b : Value)
  | notF (filter : Filter)
  | startswith (value : Value)
  | insideNetwork (networks : List Network)
  | privateIP
  | publicIP
  | optionalF (filter : Filter)
  | empty

/-- A single-quote character (ASCII 39), used when building SQL text. -/
def sqc : Char := Char.ofNat 39

/-- A single-quote as a one-character string. -/
def sq : String := String.singleton sqc

/-- `', '.join`-style helper. -/
def joinSep (sep : String) (ss : List String) : String :=
  String.intercalate sep ss

/-- Render an IPv4 numeric address in dotted-quad form (the `str` of the
`adminapi` `IP` class). -/
def ipDotted (n : Nat) : String :=
  toString (n / 16777216 % 256) ++ "." ++ toString (n / 65536 % 256) ++ "."
    ++ toString (n / 256 % 256) ++ "." ++ toString (n % 256)

/-- Python `str()` of a raw value, for the scalar shapes the claims
exercise.  (Container `repr` output is not needed by any claim and is
rendered schematically.) -/
def pyStr : Value → String
  | .str s => s
  | .int n => toString n
  | .bool b => if b then "True" else "False"
  | .ip n => ipDotted n
  | .list _ => "[...]"
  | .dict _ => "{...}"

/-- Parse the digit run of Python `int(string)`. -/
def digitsToInt : List Char → Option Int
  | [] => none
  | cs => if cs.all Char.isDigit
      then some (cs.foldl (fun acc c => acc * 10 + Int.ofNat (c.toNat - 48)) 0)
      else none

/-- Strip leading and trailing whitespace from a character list. -/
def trimChars (cs : List Char) : List Char :=
  ((cs.dropWhile Char.isWhitespace).reverse.dropWhile Char.isWhitespace).reverse

/-- Python `int(string)`: optional surrounding whitespace, optional sign,
then decimal digits; anything else raises `ValueError`. -/
def pyIntParse (s : String) : Option Int :=
  match trimChars s.data with
  | [] => none
  | c :: rest =>
    if c == '-' then (digitsToInt rest).map (fun v => -v)
    else if c == '+' then digitsToInt rest
    else digitsToInt (c :: rest)

/-- Python `int(value)` with its exception behaviour: unparsable strings
raise `ValueError`, non-numeric non-string objects raise `TypeError`. -/
def pyIntExc : Value → Except PyErr Int
  | .int n => .ok n
  | .bool b => .ok (if b then 1 else 0)
  | .ip n => .ok (Int.ofNat n)
  | .str s =>
    match pyIntParse s with
    | some n => .ok n
    | none => .error (.valueError ("invalid literal for int: " ++ s))
  | .list _ => .error (.typeError "int argument must be a string or a number")
  | .dict _ => .error (.typeError "int argument must be a string or a number")

/-- Python truthiness (`not self.value` in `ExactMatch.as_sql_expr`):
`False`, `0`, the empty string and empty containers are falsy. -/
def pyFalsy : Value → Bool
  | .bool b => !b
  | .int n => n == 0
  | .ip n => n == 0
  | .str s => s == ""
  | .list xs => xs.isEmpty
  | .dict fs => fs.isEmpty

/-- Numeric view of a value for Python 2 comparisons (`bool` and the
`int`-subclass `IP` compare as numbers). -/
def pyNum : Value → Option Int
  | .int n => some n
  | .bool b => some (if b then 1 else 0)
  | .ip n => some (Int.ofNat n)
  | _ => none

/-- Python 2 `<` on the scalar shapes the claims exercise: numbers
compare numerically, strings lexicographically, and (per CPython 2's
type-name ordering) numbers sort before strings. -/
def pyLt (a b : Value) : Bool :=
  match pyNum a, pyNum b with
  | some x, some y => x < y
  | some _, none => true
  | none, some _ => false
  | none, none =>
    match a, b with
    | .str s, .str t => decide (s < t)
    | _, _ => false

/-- Python 2 `>` as used by `Comparison.matches`. -/
def pyGt (a b : Value) : Bool := pyLt b a

/-- Python 2 `<=` (total order on the modelled scalars). -/
def pyLe (a b : Value) : Bool := !pyLt b a

/-- Escape a single character for `raw_sql_escape`. -/
def escQuoteChar (c : Char) : String :=
  if c == sqc then sq ++ sq else String.singleton c

/-- Modelled from the spec: `raw_sql_escape` lives in
`serveradmin/dataset/sqlhelpers.py`, which is not among the sources; the
spec only fixes that a single quoting utility wraps raw operand text.
Modelled as single-quoting with embedded quotes doubled. -/
def raw_sql_escape (s : String) : String :=
  sq ++ String.join (s.data.map escQuoteChar) ++ sq

/-- Modelled from the spec: `value_to_sql` lives in
`serveradmin/dataset/sqlhelpers.py`, which is not among the sources; per
the spec it renders a typed operand as a SQL literal, with address
values rendered via their integer form.  Its exact output shape is not
load-bearing for any claim: claims only need that `ExactMatch`,
`Comparison` and `Not(ExactMatch)` splice this rendering after the
operator. -/
def value_to_sql (attr : AttrObj) (v : Value) : String :=
  if attr.type == "ip" then
    match pyNum v with
    | some n => toString n
    | none => raw_sql_escape (pyStr v)
  else
    match v with
    | .str s => raw_sql_escape s
    | .int n => toString n
    | .bool b => if b then sq ++ "1" ++ sq else sq ++ "0" ++ sq
    | .ip n => toString n
    | v => raw_sql_escape (pyStr v)

/-- The three RFC1918 blocks of `PrivateIP.blocks`, as the `ip_network`
objects `10.0.0.0/8`, `172.16.0.0/12` and `192.168.0.0/16`. -/
def privateBlocks : List Network :=
  [⟨167772160, 184549375⟩, ⟨2886729728, 2887778303⟩, ⟨3232235520, 3232301055⟩]

/-- `InsideNetwork.as_sql_expr`: an `OR` of one `BETWEEN` per network
over the integer address bounds, parenthesized. -/
def InsideNetwork_sql (networks : List Network) (field : String) : String :=
  "(" ++ joinSep " OR " (networks.map (fun n =>
    field ++ " BETWEEN " ++ toString n.network_address ++ " AND "
      ++ toString n.broadcast_address)) ++ ")"

/-- `isinstance(f, Empty)`. -/
def Filter.isEmptyFilter : Filter → Bool
  | .empty => true
  | _ => false

/-- `isinstance(f, ExactMatch)`. -/
def Filter.isExactMatch : Filter → Bool
  | .exactMatch _ => true
  | _ => false

/-- `isinstance(f, Optional)` (the concrete `Optional` class, not the
`OptionalFilter` grouping base class). -/
def Filter.isOptionalInstance : Filter → Bool
  | .optionalF _ => true
  | _ => false

mutual

/-- The `as_sql_expr` methods of `filters.py`, one match arm per class,
threading the query builder's alias counter (`builder.get_uid()`
returns the current counter and increments it).  The parameters `lk`
and `regexSearch` stand for the global `lookups` table and Python's
`re` search, both external to the filter code. -/
def asSqlExpr (lk : Lookups) (regexSearch : String → String → Bool)
    (f : Filter) (attr : AttrObj) (field : String) (builder : Nat) :
    Except PyErr (String × Nat) :=
  match f with
  | .exactMatch v =>
    if attr.type == "boolean" && pyFalsy v then
      .ok ("(" ++ field ++ " = " ++ sq ++ "0" ++ sq ++ " OR " ++ field
            ++ " IS NULL)", builder)
    else
      .ok (field ++ " = " ++ value_to_sql attr v, builder)
  | .regexp pat =>
    if attr.name == "servertype" then
      let ids := (lk.stype_ids.filter (fun st => regexSearch pat st.name)).map
        (fun st => toString st.pk)
      if ids.isEmpty then .ok ("0=1", builder)
      else .ok (field ++ " IN (" ++ joinSep ", " ids ++ ")", builder)
    else if attr.type == "ip" then
      .ok ("INET_NTOA(" ++ field ++ ") REGEXP " ++ raw_sql_escape pat, builder)
    else
      .ok (field ++ " REGEXP " ++ raw_sql_escape pat, builder)
  | .comparison c v =>
    .ok (field ++ " " ++ c ++ " " ++ value_to_sql attr v, builder)
  | .anyF vs =>
    if vs.isEmpty then .ok ("0 = 1", builder)
    else .ok (field ++ " IN ("
      ++ joinSep ", " (vs.map (fun v => value_to_sql attr v)) ++ ")", builder)
  | .andF fs =>
    match asSqlExprList lk regexSearch fs attr field builder with
    | .error e => .error e
    | .ok (ss, b2) => .ok ("(" ++ joinSep " AND " ss ++ ")", b2)
  | .orF fs =>
    match asSqlExprList lk regexSearch fs attr field builder with
    | .error e => .error e
    | .ok (ss, b2) => .ok ("(" ++ joinSep " OR " ss ++ ")", b2)
  | .between a b =>
    .ok (field ++ " BETWEEN " ++ value_to_sql attr a ++ " AND "
          ++ value_to_sql attr b, builder)
  | .notF child =>
    if attr.multi then
      -- uid = builder.get_uid() happens before the Empty test
      let uid := builder
      if child.isEmptyFilter then
        .ok ("EXISTS (SELECT 1 FROM attrib_values AS nav" ++ toString uid
              ++ " WHERE nav" ++ toString uid
              ++ ".server_id = adms.server_id AND nav" ++ toString uid
              ++ ".attrib_id = " ++ toString attr.attrib_id ++ ")", uid + 1)
      else
        match asSqlExpr lk regexSearch child attr
            ("nav" ++ toString uid ++ ".value") (uid + 1) with
        | .error e => .error e
        | .ok (cond, b2) =>
          .ok ("NOT EXISTS (SELECT id FROM attrib_values AS nav"
                ++ toString uid ++ " WHERE " ++ cond ++ " AND nav"
                ++ toString uid ++ ".server_id = adms.server_id AND nav"
                ++ toString uid ++ ".attrib_id = "
                ++ toString attr.attrib_id ++ ")", b2)
    else
      match child with
      | .exactMatch v =>
        .ok (field ++ " != " ++ value_to_sql attr v, builder)
      | c =>
        match asSqlExpr lk regexSearch c attr field builder with
        | .error e => .error e
        | .ok (s, b2) => .ok ("NOT " ++ s, b2)
  | .startswith v =>
    if attr.name == "servertype" then
      match v with
      | .str s =>
        let ids := (lk.stype_ids.filter (fun st => s.isPrefixOf st.name)).map
          (fun st => toString st.pk)
        if ids.isEmpty then .ok ("0 = 1", builder)
        else .ok (field ++ " IN (" ++ joinSep ", " ids ++ ")", builder)
      | _ => .error (.typeError "startswith first arg must be str or unicode")
    else if attr.type == "ip" then
      .ok ("INET_NTOA(" ++ field ++ ") LIKE "
            ++ raw_sql_escape (pyStr v ++ "%%"), builder)
    else if attr.type == "string" then
      match v with
      | .str s =>
        let escaped := (s.replace "_" "\\_").replace "%" "\\%%"
        .ok (field ++ " LIKE " ++ raw_sql_escape (escaped ++ "%%"), builder)
      | _ => .error (.attributeError "value has no attribute replace")
    else if attr.type == "integer" then
      -- Source: return u"{0} LIKE '{1}%'".format(int(self.value)) --
      -- a format string with two fields but only one argument, so when
      -- int() succeeds the format call raises IndexError, which the
      -- surrounding `except ValueError` does not catch.
      match pyIntExc v with
      | .ok _ => .error (.indexError "tuple index out of range")
      | .error (.valueError _) => .ok ("0 = 1", builder)
      | .error e => .error e
    else
      .ok ("0 = 1", builder)
  | .insideNetwork nets =>
    .ok (InsideNetwork_sql nets field, builder)
  | .privateIP =>
    -- PrivateIP.__init__ sets self.filt = InsideNetwork(*blocks); the
    -- NoArgFilter.as_sql_expr delegates to it.
    .ok (InsideNetwork_sql privateBlocks field, builder)
  | .publicIP =>
    -- PublicIP.__init__ sets self.filt = Not(InsideNetwork(*blocks));
    -- Not.as_sql_expr on that child is expanded in place (the child is
    -- neither Empty nor ExactMatch, and compiles without allocating).
    if attr.multi then
      let uid := builder
      .ok ("NOT EXISTS (SELECT id FROM attrib_values AS nav" ++ toString uid
            ++ " WHERE "
            ++ InsideNetwork_sql privateBlocks ("nav" ++ toString uid ++ ".value")
            ++ " AND nav" ++ toString uid
            ++ ".server_id = adms.server_id AND nav" ++ toString uid
            ++ ".attrib_id = " ++ toString attr.attrib_id ++ ")", uid + 1)
    else
      .ok ("NOT " ++ InsideNetwork_sql privateBlocks field, builder)
  | .optionalF child =>
    match asSqlExpr lk regexSearch child attr field builder with
    | .error e => .error e
    | .ok (s, b2) => .ok ("(" ++ field ++ " IS NULL OR " ++ s ++ ")", b2)
  | .empty =>
    .ok (field ++ " IS NULL", builder)

/-- Compile a list of children left to right (the list comprehension in
`_AndOr.as_sql_expr`), threading the alias counter. -/
def asSqlExprList (lk : Lookups) (regexSearch : String → String → Bool)
    (fs : List Filter) (attr : AttrObj) (field : String) (builder : Nat) :
    Except PyErr (List String × Nat) :=
  match fs with
  | [] => .ok ([], builder)
  | f :: rest =>
    match asSqlExpr lk regexSearch f attr field builder with
    | .error e => .error e
    | .ok (s, b2) =>
      match asSqlExprList lk regexSearch rest attr field b2 with
      | .error e => .error e
      | .ok (ss, b3) => .ok (s :: ss, b3)

end

/-- `Comparison.__init__`'s validation: the comparator must be one of
the four allowed strings, else `ValueError` (`InvalidOperator`). -/
def Comparison_validOp (c : String) : Bool :=
  c == "<" || c == ">" || c == "<=" || c == ">="

/-- `operator.le == '<='` in `Comparison.matches` compares a builtin
function object with a string, which is always `False` in Python. -/
def operator_le_eq_le_string : Bool := false

/-- `operator.gt == '>='` in `Comparison.matches` likewise compares a
function object with a string and is always `False`. -/
def operator_gt_eq_ge_string : Bool := false

/-- `Comparison.matches(server_obj, attr_name)`, applied to the record's
value `recordVal = server_obj[attr_name]` and the filter operand
`value`: the source dispatches `'<'` and `'>'` correctly, but the third
and fourth branches test `operator.le == '<='` and `operator.gt == '>='`
(function versus string, never true), so `'<='` and `'>='` fall through
to `raise ValueError`. -/
def Comparison_matches (comparator : String) (value recordVal : Value) :
    Except PyErr Bool :=
  if comparator == "<" then .ok (pyLt recordVal value)
  else if comparator == ">" then .ok (pyGt recordVal value)
  else if operator_le_eq_le_string then .ok (pyLe recordVal value)
  else if operator_gt_eq_ge_string then .ok (pyGt recordVal value)
  else .error (.valueError "Operator doesnt exists")

/-- `InsideNetwork.matches(server_obj, attr_name)`: the source evaluates
`any(net.min_ip <= server_obj[attr_name] <= net.max_ip for net in
self.networks)`, but `ipaddress` network objects expose
`network_address`/`broadcast_address` (which `as_sql_expr` correctly
uses), not `min_ip`/`max_ip`; so the first attribute access on a
nonempty network list raises `AttributeError`, while `any` of an empty
generator is `False`. -/
def InsideNetwork_matches (networks : List Network) (_recordVal : Value) :
    Except PyErr Bool :=
  match networks with
  | [] => .ok false
  | _ :: _ =>
    .error (.attributeError "IPv4Network object has no attribute min_ip")

/-- `InsideNetwork.__eq__`: `all(n1 == n2 for n1, n2 in zip(...))`; note
`zip` stops at the shorter list, so no length comparison happens. -/
def InsideNetwork_eq (xs ys : List Network) : Bool :=
  (xs.zip ys).all (fun p => p.fst == p.snd)

/-- The spec-side predicate (glossary "Optional-class filter"): written
from the spec's words, to compare with the source's branch condition:
`Optional`, `Empty`, or a `Not` wrapping one of these. -/
def optionalClassSpec : Filter → Bool
  | .optionalF _ => true
  | .empty => true
  | .notF .empty => true
  | .notF (.optionalF _) => true
  | _ => false

/-- What `QuerySet._fetch_results` appends for one EAV `(attribute,
filter)` pair: either a `LEFT JOIN` clause, or a `FROM` entry plus
`WHERE` conditions. -/
inductive JoinEmit where
  | leftJoin (clause : String)
  | innerJoin (fromEntry : String) (whereConds : List String)
deriving DecidableEq, Repr

/-- The EAV arm of the loop in `QuerySet._fetch_results`, for join alias
index `i` and attribute primary key `pk`.  The branch condition is
`isinstance(f, _Optional)` where `_Optional` is the `Optional` class
itself (not the `OptionalFilter` grouping base class, which the module
imports nothing of).  `frag` stands for the fragment the source tries to
obtain from `f.as_sql_expr(attr, attr_field)` — a call which, against
the `as_sql_expr(self, builder, attr_obj, field)` signature in
`filters.py`, is missing an argument and raises `TypeError` at run
time; the emitted structure around it is modelled as written. -/
def fetchEmit (i : Nat) (pk : Nat) (frag : String) (f : Filter) : JoinEmit :=
  if f.isOptionalInstance then
    .leftJoin ("LEFT JOIN attrib_values AS av" ++ toString i
      ++ " ON av" ++ toString i ++ ".server_id = adms.server_id AND av"
      ++ toString i ++ ".attrib_id = " ++ toString pk ++ " AND " ++ frag)
  else
    .innerJoin ("attrib_values AS av" ++ toString i)
      ["av" ++ toString i ++ ".server_id = adms.server_id",
       "av" ++ toString i ++ ".attrib_id = " ++ toString pk,
       frag]

/-- The scalar-exception attributes of `_fetch_results`
(`attr_exceptions` keys): stored as columns of `admin_server`, not EAV
rows. -/
def attr_exception_keys : List String :=
  ["hostname", "intern_ip", "segment", "servertype"]

/-- How many read statements `_fetch_results` executes once the first
(candidate) statement has returned `serverCount` rows, given the
`restrict` set (`[]` models an absent/empty restriction, as both are
falsy in the source).  The source returns after the first statement when
no servers matched, or when the restrict set minus the scalar-exception
attributes is empty; otherwise it executes the second (value-fetch)
statement. -/
def numReadStatements (serverCount : Nat) (restrict : List String) : Nat :=
  if serverCount == 0 then 1
  else if !restrict.isEmpty
      && (restrict.filter (fun a => !(attr_exception_keys.contains a))).isEmpty
    then 1
  else 2

mutual

/-- Size of a wire value (a computable mirror of `sizeOf`), used as the
recursion-depth fuel of the wire-object parser: every recursive step of
the parser passes a value extracted from strictly inside the current
one, whose size is smaller by at least one. -/
def valueSize : Value → Nat
  | .str _ => 1
  | .int _ => 1
  | .bool _ => 1
  | .ip _ => 1
  | .list xs => 1 + valueListSize xs
  | .dict fs => 1 + fieldsSize fs

/-- Size of a list of wire values. -/
def valueListSize : List Value → Nat
  | [] => 1
  | x :: rest => 1 + valueSize x + valueListSize rest

/-- Size of the field list of a wire dict. -/
def fieldsSize : List (String × Value) → Nat
  | [] => 1
  | p :: rest => 1 + valueSize p.snd + fieldsSize rest

end

/-- Whether an embedded Python call returned normally (no exception). -/
def isOkE {α : Type} : Except PyErr α → Bool
  | .ok _ => true
  | .error _ => false

/-- Python dict key lookup on the field list of a wire object. -/
def dictGet (fields : List (String × Value)) (k : String) : Option Value :=
  match fields with
  | [] => none
  | p :: rest => if p.fst == k then some p.snd else dictGet rest k

/-- Python `hash()` succeeds on the scalar operand shapes and fails with
`TypeError` on lists and dicts (`Any.__init__` builds a `set` of its
values). -/
def hashableValue : Value → Bool
  | .list _ => false
  | .dict _ => false
  | _ => true

/-- Whether an optional lookup produced a string (`u'...' in obj and
isinstance(obj[...], basestring)`). -/
def isStrOpt : Option Value → Bool
  | some (.str _) => true
  | _ => false

/-- Whether an optional lookup produced a list (`isinstance(...,
(tuple, list))`). -/
def isListOpt : Option Value → Bool
  | some (.list _) => true
  | _ => false

/-- `[ip_network(n) for n in networks]`: parse each network, stopping at
the first failure (`parseNet` stands for `ipaddress.ip_network`, which
is external library code). -/
def parseNets (parseNet : Value → Option Network) :
    List Value → Option (List Network)
  | [] => some []
  | v :: rest =>
    match parseNet v with
    | none => none
    | some n => (parseNets parseNet rest).map (fun l => n :: l)

/-- `ExactMatch.from_obj`: requires the `value` key (any value). -/
def exactMatchFromObj (fields : List (String × Value)) : Except PyErr Filter :=
  match dictGet fields "value" with
  | some v => .ok (.exactMatch v)
  | none => .error (.valueError "Invalid object for ExactMatch")

/-- `Regexp.from_obj` plus `Regexp.__init__`: requires a string
`regexp` key, and the pattern must compile (`reOk` stands for
`re.compile` succeeding). -/
def regexpFromObj (reOk : String → Bool) (fields : List (String × Value)) :
    Except PyErr Filter :=
  match dictGet fields "regexp" with
  | some (.str r) =>
    if reOk r then .ok (.regexp r)
    else .error (.valueError ("Invalid regexp: " ++ r))
  | _ => .error (.valueError "Invalid object for Regexp")

/-- `Comparison.from_obj` plus `Comparison.__init__`: requires
`comparator` and `value` keys; the constructor rejects comparators
outside the allowed four (a non-string comparator makes the error
message concatenation itself raise `TypeError`). -/
def comparisonFromObj (fields : List (String × Value)) : Except PyErr Filter :=
  match dictGet fields "comparator", dictGet fields "value" with
  | some c, some v =>
    match c with
    | .str s =>
      if Comparison_validOp s then .ok (.comparison s v)
      else .error (.valueError ("Invalid comparison operator: " ++ s))
    | _ => .error (.typeError "cannot concatenate unicode and non-str")
  | _, _ => .error (.valueError "Invalid object for Comparison")

/-- `Any.from_obj` plus `Any.__init__`: requires a list `values` key;
building the value `set` raises `TypeError` on unhashable elements. -/
def anyFromObj (fields : List (String × Value)) : Except PyErr Filter :=
  match dictGet fields "values" with
  | some (.list vs) =>
    if vs.all hashableValue then .ok (.anyF vs)
    else .error (.typeError "unhashable type")
  | _ => .error (.valueError "Invalid object for Any")

/-- `Between.from_obj`: requires the `a` and `b` keys (any values). -/
def betweenFromObj (fields : List (String × Value)) : Except PyErr Filter :=
  match dictGet fields "a", dictGet fields "b" with
  | some a, some b => .ok (.between a b)
  | _, _ => .error (.valueError "Invalid object for Between")

/-- `Startswith.from_obj`: requires a string `value` key. -/
def startswithFromObj (fields : List (String × Value)) : Except PyErr Filter :=
  match dictGet fields "value" with
  | some (.str s) => .ok (.startswith (.str s))
  | _ => .error (.valueError "Invalid object for Startswith")

/-- `InsideNetwork.from_obj` plus `InsideNetwork.__init__`: requires a
list `networks` key whose entries all parse via `ip_network`
(`parseNet`). -/
def insideNetworkFromObj (parseNet : Value → Option Network)
    (fields : List (String × Value)) : Except PyErr Filter :=
  match dictGet fields "networks" with
  | some (.list ns) =>
    match parseNets parseNet ns with
    | some nets => .ok (.insideNetwork nets)
    | none => .error (.valueError "does not appear to be a network")
  | _ => .error (.valueError "Invalid object for InsideNetwork")

mutual

/-- Fueled core of `filter_from_obj` in `filters.py`: the object must be
a dict whose `name` key holds a known filter-class name; the per-class
`from_obj` methods handle the rest, with `And`/`Or`/`Not`/`Optional`
recursing into child filter objects.  The fuel only bounds the
recursion depth so that the recursion is structural: every recursive
call passes an object extracted from strictly inside the current one
(so its `sizeOf` shrinks by at least one), hence with the wrapper's
`sizeOf obj` fuel the exhaustion case is never reached
(`filter_from_obj_f_stable` below makes this precise). -/
def filter_from_obj_f (reOk : String → Bool)
    (parseNet : Value → Option Network) : Nat → Value → Except PyErr Filter
  | 0, _ => .error (.valueError "recursion limit")
  | fuel + 1, obj =>
    match obj with
    | .dict fields =>
      match dictGet fields "name" with
      | some (.str name) =>
        if name == "exactmatch" then exactMatchFromObj fields
        else if name == "regexp" then regexpFromObj reOk fields
        else if name == "comparison" then comparisonFromObj fields
        else if name == "any" then anyFromObj fields
        else if name == "and" then
          match dictGet fields "filters" with
          | some (.list xs) =>
            if xs.isEmpty then .error (.valueError "Empty filters for And Or")
            else (filters_from_objs_f reOk parseNet fuel xs).map Filter.andF
          | _ => .error (.valueError "Invalid object for And")
        else if name == "or" then
          match dictGet fields "filters" with
          | some (.list xs) =>
            if xs.isEmpty then .error (.valueError "Empty filters for And Or")
            else (filters_from_objs_f reOk parseNet fuel xs).map Filter.orF
          | _ => .error (.valueError "Invalid object for Or")
        else if name == "between" then betweenFromObj fields
        else if name == "not" then
          match dictGet fields "filter" with
          | some child =>
            (filter_from_obj_f reOk parseNet fuel child).map Filter.notF
          | none => .error (.valueError "Invalid object for Not")
        else if name == "startswith" then startswithFromObj fields
        else if name == "insidenetwork" then
          insideNetworkFromObj parseNet fields
        else if name == "privateip" then .ok .privateIP
        else if name == "publicip" then .ok .publicIP
        else if name == "optional" then
          match dictGet fields "filter" with
          | some child =>
            (filter_from_obj_f reOk parseNet fuel child).map Filter.optionalF
          | none => .error (.valueError "Invalid object for Optional")
        else if name == "empty" then .ok .empty
        else .error (.valueError ("No such filter: " ++ name))
      | _ => .error (.valueError "Invalid filter object")
    | _ => .error (.valueError "Invalid filter object")

/-- Fueled `[filter_from_obj(filter) for filter in obj[u'filters']]`:
parse each element left to right, propagating the first failure. -/
def filters_from_objs_f (reOk : String → Bool)
    (parseNet : Value → Option Network) : Nat → List Value →
    Except PyErr (List Filter)
  | 0, [] => .ok []
  | _ + 1, [] => .ok []
  | 0, _ :: _ => .error (.valueError "recursion limit")
  | fuel + 1, x :: rest =>
    match filter_from_obj_f reOk parseNet fuel x with
    | .error e => .error e
    | .ok f =>
      match filters_from_objs_f reOk parseNet fuel rest with
      | .error e => .error e
      | .ok fs => .ok (f :: fs)

end

/-- `filter_from_obj` of `filters.py`: the fueled core run with enough
fuel for the object's recursion depth. -/
def filter_from_obj (reOk : String → Bool)
    (parseNet : Value → Option Network) (obj : Value) :
    Except PyErr Filter :=
  filter_from_obj_f reOk parseNet (valueSize obj) obj

/-- Claim-side well-formedness of one variant body, per the claim's
"missing or wrongly-typed required keys" (the combinator cases are
handled in `wellFormedClaim` itself, which recurses). -/
def wfClaimLeaf (name : String) (fields : List (String × Value)) : Bool :=
  if name == "exactmatch" then (dictGet fields "value").isSome
  else if name == "regexp" then isStrOpt (dictGet fields "regexp")
  else if name == "comparison" then
    isStrOpt (dictGet fields "comparator") && (dictGet fields "value").isSome
  else if name == "any" then isListOpt (dictGet fields "values")
  else if name == "between" then
    (dictGet fields "a").isSome && (dictGet fields "b").isSome
  else if name == "startswith" then isStrOpt (dictGet fields "value")
  else if name == "insidenetwork" then isListOpt (dictGet fields "networks")
  else if name == "privateip" then true
  else if name == "publicip" then true
  else if name == "empty" then true
  else false

mutual

/-- Fueled core of the claim's well-formedness, written from the
claim's words: the `name` selects a known variant, the variant's
required keys are present with the right JSON types, an `and`/`or`
filter list is nonempty, and child filter objects are recursively well
formed.  Fuel as in `filter_from_obj_f`. -/
def wellFormedClaim_f : Nat → Value → Bool
  | 0, _ => false
  | fuel + 1, obj =>
    match obj with
    | .dict fields =>
      match dictGet fields "name" with
      | some (.str name) =>
        if name == "and" || name == "or" then
          match dictGet fields "filters" with
          | some (.list xs) => !xs.isEmpty && wellFormedClaimList_f fuel xs
          | _ => false
        else if name == "not" || name == "optional" then
          match dictGet fields "filter" with
          | some child => wellFormedClaim_f fuel child
          | none => false
        else wfClaimLeaf name fields
      | _ => false
    | _ => false

/-- Fueled conjunction of `wellFormedClaim_f` over a filter list. -/
def wellFormedClaimList_f : Nat → List Value → Bool
  | 0, [] => true
  | _ + 1, [] => true
  | 0, _ :: _ => false
  | fuel + 1, x :: rest =>
    wellFormedClaim_f fuel x && wellFormedClaimList_f fuel rest

end

/-- The claim's well-formedness (fueled core with enough fuel). -/
def wellFormedClaim (obj : Value) : Bool :=
  wellFormedClaim_f (valueSize obj) obj

/-- Amended well-formedness of one non-combinator variant body:
`wfClaimLeaf` strengthened by the construction-time validations the
source performs while that variant is built. -/
def wfAmendedLeaf (reOk : String → Bool) (parseNet : Value → Option Network)
    (name : String) (fields : List (String × Value)) : Bool :=
  if name == "exactmatch" then (dictGet fields "value").isSome
  else if name == "regexp" then
    match dictGet fields "regexp" with
    | some (.str r) => reOk r
    | _ => false
  else if name == "comparison" then
    match dictGet fields "comparator", dictGet fields "value" with
    | some (.str s), some _ => Comparison_validOp s
    | _, _ => false
  else if name == "any" then
    match dictGet fields "values" with
    | some (.list vs) => vs.all hashableValue
    | _ => false
  else if name == "between" then
    (dictGet fields "a").isSome && (dictGet fields "b").isSome
  else if name == "startswith" then isStrOpt (dictGet fields "value")
  else if name == "insidenetwork" then
    match dictGet fields "networks" with
    | some (.list ns) => (parseNets parseNet ns).isSome
    | _ => false
  else if name == "privateip" then true
  else if name == "publicip" then true
  else if name == "empty" then true
  else false

mutual

/-- Fueled core of the amended well-formedness: `wellFormedClaim`
strengthened by the construction-time validations — the comparison
operator must be one of the four allowed ones, a `regexp` pattern must
compile, every `insidenetwork` entry must parse as a network, and
`any` values must be hashable.  Fuel as in `filter_from_obj_f`. -/
def wellFormedAmended_f (reOk : String → Bool)
    (parseNet : Value → Option Network) : Nat → Value → Bool
  | 0, _ => false
  | fuel + 1, obj =>
    match obj with
    | .dict fields =>
      match dictGet fields "name" with
      | some (.str name) =>
        if name == "and" || name == "or" then
          match dictGet fields "filters" with
          | some (.list xs) =>
            !xs.isEmpty && wellFormedAmendedList_f reOk parseNet fuel xs
          | _ => false
        else if name == "not" || name == "optional" then
          match dictGet fields "filter" with
          | some child => wellFormedAmended_f reOk parseNet fuel child
          | none => false
        else wfAmendedLeaf reOk parseNet name fields
      | _ => false
    | _ => false

/-- Fueled conjunction of `wellFormedAmended_f` over a filter list. -/
def wellFormedAmendedList_f (reOk : String → Bool)
    (parseNet : Value → Option Network) : Nat → List Value → Bool
  | 0, [] => true
  | _ + 1, [] => true
  | 0, _ :: _ => false
  | fuel + 1, x :: rest =>
    wellFormedAmended_f reOk parseNet fuel x
      && wellFormedAmendedList_f reOk parseNet fuel rest

end

/-- The amended well-formedness (fueled core with enough fuel). -/
def wellFormedAmended (reOk : String → Bool)
    (parseNet : Value → Option Network) (obj : Value) : Bool :=
  wellFormedAmended_f reOk parseNet (valueSize obj) obj

/-- An argument position that expects a filter: either already a
`BaseFilter` instance or a raw value. -/
inductive FilterOrValue where
  | filt (f : Filter)
  | raw (v : Value)

/-- `_prepare_filter`: pass filters through, wrap anything else in
`ExactMatch`. -/
def prepare_filter : FilterOrValue → Filter
  | .filt f => f
  | .raw v => .exactMatch v

/-- `Not.__init__`. -/
def Not_mk (x : FilterOrValue) : Filter := .notF (prepare_filter x)

/-- `And.__init__` (via `_AndOr.__init__`). -/
def And_mk (xs : List FilterOrValue) : Filter :=
  .andF (xs.map prepare_filter)

/-- `Or.__init__` (via `_AndOr.__init__`). -/
def Or_mk (xs : List FilterOrValue) : Filter :=
  .orF (xs.map prepare_filter)

/-- `Optional.__init__`. -/
def Optional_mk (x : FilterOrValue) : Filter := .optionalF (prepare_filter x)

/-- `serveradmin.dataset.query(**kwargs)`: the filters mapping handed to
`QuerySet`, with every value passed through `_prepare_filter`. -/
def query (kwargs : List (String × FilterOrValue)) : List (String × Filter) :=
  kwargs.map (fun p => (p.fst, prepare_filter p.snd))

/-- C1: compiling `Not(f)` — for a multi-valued attribute a fresh alias
`nav<uid>` is drawn from the shared context and the result is a
correlated `NOT EXISTS` subquery selecting the value rows of this
entity and attribute that satisfy `f`, except that `Not(Empty())`
compiles to an `EXISTS` over any value row for this entity and
attribute; for a single-valued attribute, `Not(ExactMatch(v))` compiles
to `field != v` and `Not` of any other filter compiles to
`NOT <child fragment>`. -/
theorem notFilter_sql_spec (lk : Lookups) (rs : String → String → Bool)
    (nm ty : String) (aid : Nat) (field : String) (b : Nat)
    (child : Filter) (v : Value) (cond : String) (b2 : Nat) :
    (asSqlExpr lk rs (.notF .empty) ⟨nm, ty, true, aid⟩ field b
      = .ok ("EXISTS (SELECT 1 FROM attrib_values AS nav" ++ toString b
          ++ " WHERE nav" ++ toString b
          ++ ".server_id = adms.server_id AND nav" ++ toString b
          ++ ".attrib_id = " ++ toString aid ++ ")", b + 1))
    ∧ (child.isEmptyFilter = false →
        asSqlExpr lk rs child ⟨nm, ty, true, aid⟩
            ("nav" ++ toString b ++ ".value") (b + 1) = .ok (cond, b2) →
        asSqlExpr lk rs (.notF child) ⟨nm, ty, true, aid⟩ field b
          = .ok ("NOT EXISTS (SELECT id FROM attrib_values AS nav"
              ++ toString b ++ " WHERE " ++ cond ++ " AND nav" ++ toString b
              ++ ".server_id = adms.server_id AND nav" ++ toString b
              ++ ".attrib_id = " ++ toString aid ++ ")", b2))
    ∧ (asSqlExpr lk rs (.notF (.exactMatch v)) ⟨nm, ty, false, aid⟩ field b
        = .ok (field ++ " != " ++ value_to_sql ⟨nm, ty, false, aid⟩ v, b))
    ∧ (child.isExactMatch = false →
        asSqlExpr lk rs child ⟨nm, ty, false, aid⟩ field b = .ok (cond, b2) →
        asSqlExpr lk rs (.notF child) ⟨nm, ty, false, aid⟩ field b
          = .ok ("NOT " ++ cond, b2)) := by
  refine ⟨?_, ?_, ?_, ?_⟩
  · simp [asSqlExpr, Filter.isEmptyFilter]
  · intro hne hc
    cases child <;> simp_all [asSqlExpr, Filter.isEmptyFilter]
  · simp [asSqlExpr]
  · intro hne hc
    cases child <;> simp_all [asSqlExpr, Filter.isExactMatch]

/-- Witness for `notFilter_sql_spec` at concrete inputs: the child
`Any()` compiles to `0 = 1` without allocating an alias, so
`Not(Any())` on a multi-valued attribute (id 5, alias counter 0)
yields the correlated `NOT EXISTS` subquery, and on a single-valued
attribute the plain negation. -/
theorem notFilter_sql_spec_witness :
    asSqlExpr ⟨[]⟩ (fun _ _ => false) (.notF (.anyF []))
        ⟨"attr", "string", true, 5⟩ "f" 0
      = .ok ("NOT EXISTS (SELECT id FROM attrib_values AS nav0 WHERE 0 = 1"
          ++ " AND nav0.server_id = adms.server_id AND nav0.attrib_id = 5)", 1)
    ∧ asSqlExpr ⟨[]⟩ (fun _ _ => false) (.notF (.anyF []))
        ⟨"attr", "string", false, 5⟩ "f" 0
      = .ok ("NOT 0 = 1", 0) := by
  constructor
  · exact (notFilter_sql_spec ⟨[]⟩ (fun _ _ => false) "attr" "string" 5 "f" 0
      (.anyF []) (.int 1) "0 = 1" 1).2.1 rfl rfl
  · exact (notFilter_sql_spec ⟨[]⟩ (fun _ _ => false) "attr" "string" 5 "f" 0
      (.anyF []) (.int 1) "0 = 1" 0).2.2.2 rfl rfl

/-- C2: the claim says `_fetch_results` emits a left join for every
optional-class filter (`Optional`, `Empty`, `Not(Empty)`), but the
source's branch condition is `isinstance(f, Optional)` — the concrete
`Optional` class only — so `Empty()` and `Not(Empty())` take the
inner-join path (a `FROM` entry for the value table plus `WHERE`
conditions requiring a matching row), while an `Optional` filter takes
the left-join path. -/
theorem fetch_join_kind_bug :
    Filter.isOptionalInstance .empty = false
    ∧ Filter.isOptionalInstance (.notF .empty) = false
    ∧ optionalClassSpec .empty = true
    ∧ optionalClassSpec (.notF .empty) = true
    ∧ fetchEmit 0 7 "av0.value IS NULL" .empty
      = .innerJoin "attrib_values AS av0"
          ["av0.server_id = adms.server_id", "av0.attrib_id = 7",
           "av0.value IS NULL"]
    ∧ fetchEmit 0 7 "frag" (.optionalF (.exactMatch (.str "x")))
      = .leftJoin ("LEFT JOIN attrib_values AS av0 ON av0.server_id = "
          ++ "adms.server_id AND av0.attrib_id = 7 AND frag") := by
  refine ⟨rfl, rfl, rfl, rfl, rfl, rfl⟩

/-- C3: `Comparison('<=', 5)` is accepted by the constructor, yet
`matches` raises `ValueError` for it (the `<=`/`>=` dispatch arms
compare `operator.le`/`operator.gt` — function objects — against
strings, so they are never taken), while `'<'` dispatches correctly;
the claim's expected result `3 <= 5` is true. -/
theorem comparison_matches_le_bug :
    Comparison_validOp "<=" = true
    ∧ Comparison_matches "<=" (.int 5) (.int 3)
      = .error (.valueError "Operator doesnt exists")
    ∧ Comparison_matches ">=" (.int 5) (.int 3)
      = .error (.valueError "Operator doesnt exists")
    ∧ Comparison_matches "<" (.int 5) (.int 3) = .ok true
    ∧ Comparison_matches ">" (.int 5) (.int 3) = .ok false
    ∧ pyLe (.int 3) (.int 5) = true := by
  refine ⟨rfl, rfl, rfl, rfl, rfl, rfl⟩

/-- C4: `Startswith('5')` on an integer-typed attribute raises
`IndexError` (the format string has two fields but only one argument),
although the prefix parses as an integer; a non-numeric prefix takes
the `except ValueError` path and compiles to the always-false
predicate. -/
theorem startswith_integer_bug :
    asSqlExpr ⟨[]⟩ (fun _ _ => false) (.startswith (.str "5"))
        ⟨"num", "integer", false, 3⟩ "num" 0
      = .error (.indexError "tuple index out of range")
    ∧ pyIntParse "5" = some 5
    ∧ asSqlExpr ⟨[]⟩ (fun _ _ => false) (.startswith (.str "abc"))
        ⟨"num", "integer", false, 3⟩ "num" 0
      = .ok ("0 = 1", 0) := by
  have h5 : pyIntParse "5" = some 5 := by decide
  have habc : pyIntParse "abc" = none := by decide
  refine ⟨?_, h5, ?_⟩
  · simp [asSqlExpr, pyIntExc, h5]
  · simp [asSqlExpr, pyIntExc, habc]

/-- C5: `InsideNetwork('10.0.0.0/8').matches` on a record whose value is
`10.1.2.3` (numerically 167838211) raises `AttributeError` instead of
returning true: the generator reads `net.min_ip`/`net.max_ip`, which
`ipaddress` network objects do not have — `as_sql_expr` on the same
network correctly reads `network_address`/`broadcast_address`, as the
second conjunct shows. -/
theorem insideNetwork_matches_bug :
    InsideNetwork_matches [⟨167772160, 184549375⟩] (.ip 167838211)
      = .error (.attributeError "IPv4Network object has no attribute min_ip")
    ∧ InsideNetwork_matches [⟨167772160, 184549375⟩] (.ip 3232235777)
      = .error (.attributeError "IPv4Network object has no attribute min_ip")
    ∧ InsideNetwork_sql [⟨167772160, 184549375⟩] "intern_ip"
      = "(intern_ip BETWEEN 167772160 AND 184549375)" := by
  refine ⟨rfl, rfl, rfl⟩

/-- C6: on a boolean-typed attribute, `ExactMatch(False)` compiles to
the fragment `(field = '0' OR field IS NULL)` — so an entity with no
stored value row is matched — while `ExactMatch(True)` compiles to
`field = <rendered value>`. -/
theorem exactMatch_boolean_sql (lk : Lookups) (rs : String → String → Bool)
    (nm : String) (aid : Nat) (multi : Bool) (field : String) (b : Nat) :
    asSqlExpr lk rs (.exactMatch (.bool false)) ⟨nm, "boolean", multi, aid⟩
        field b
      = .ok ("(" ++ field ++ " = " ++ sq ++ "0" ++ sq ++ " OR " ++ field
          ++ " IS NULL)", b)
    ∧ asSqlExpr lk rs (.exactMatch (.bool true)) ⟨nm, "boolean", multi, aid⟩
        field b
      = .ok (field ++ " = "
          ++ value_to_sql ⟨nm, "boolean", multi, aid⟩ (.bool true), b) := by
  constructor
  · simp [asSqlExpr, pyFalsy]
  · simp [asSqlExpr, pyFalsy]

/-- C8: `InsideNetwork.__eq__` compares the network lists with
`zip`, which stops at the shorter list: the filters over
`[10.0.0.0/8]` and `[10.0.0.0/8, 192.168.0.0/16]` compare equal even
though their network lists differ, contradicting structural equality
(and the structural `__hash__`, which covers all elements). -/
theorem insideNetwork_eq_zip_bug :
    InsideNetwork_eq [⟨167772160, 184549375⟩]
        [⟨167772160, 184549375⟩, ⟨3232235520, 3232301055⟩] = true
    ∧ ([⟨167772160, 184549375⟩] : List Network)
        ≠ [⟨167772160, 184549375⟩, ⟨3232235520, 3232301055⟩] := by
  exact ⟨rfl, by decide⟩

/-- C9 counterexample: the claim says every query issues exactly two
read statements, but a query whose candidate statement returns no rows
issues exactly one. -/
theorem two_statements_counterexample :
    numReadStatements 0 [] = 1 ∧ numReadStatements 0 [] ≠ 2 := by
  exact ⟨rfl, by decide⟩

/-- C9 amended: `_fetch_results` issues one or two read statements —
the candidate-id statement always, and the value-fetch statement
exactly when some candidate matched and the restriction set is either
absent or still nonempty after removing the scalar-exception
attributes. -/
theorem read_statement_count_amended (n : Nat) (r : List String) :
    (numReadStatements n r = 1 ∨ numReadStatements n r = 2)
    ∧ (numReadStatements n r = 2
        ↔ n ≠ 0 ∧ (r = []
            ∨ r.filter (fun a => !(attr_exception_keys.contains a)) ≠ [])) := by
  have hval : numReadStatements n r = 1 ∨ numReadStatements n r = 2 := by
    unfold numReadStatements
    split
    · exact Or.inl rfl
    split
    · exact Or.inl rfl
    · exact Or.inr rfl
  refine ⟨hval, ?_⟩
  unfold numReadStatements
  split
  · rename_i h0
    replace h0 : n = 0 := by simpa using h0
    constructor
    · intro h
      exact absurd h (by decide)
    · rintro ⟨hn, -⟩
      exact absurd h0 hn
  · rename_i h0
    replace h0 : ¬n = 0 := by simpa using h0
    split
    · rename_i hc
      rw [Bool.and_eq_true] at hc
      obtain ⟨hne, hfe⟩ := hc
      constructor
      · intro h
        exact absurd h (by decide)
      · rintro ⟨-, hor⟩
        rcases hor with hre | hrf
        · rw [hre] at hne
          exact absurd hne (by decide)
        · exact absurd (List.isEmpty_iff.mp hfe) hrf
    · rename_i hc
      constructor
      · intro _
        refine ⟨h0, ?_⟩
        by_cases hre : r = []
        · exact Or.inl hre
        · right
          intro hfil
          apply hc
          rw [Bool.and_eq_true]
          refine ⟨?_, ?_⟩
          · cases r with
            | nil => exact absurd rfl hre
            | cons a as => rfl
          · exact List.isEmpty_iff.mpr hfil
      · intro _
        rfl

/-- C10: `_prepare_filter` wraps any non-filter operand in
`ExactMatch`, and every site that accepts a filter (`Not`, `And`,
`Or`, `Optional`, and the `query(**kwargs)` entry point) routes its
operands through it, so passing a raw value behaves identically to
passing `ExactMatch` of that value. -/
theorem prepare_filter_wrapping (v : Value) (attr : String)
    (rest : List (String × FilterOrValue)) (xs : List FilterOrValue) :
    prepare_filter (.raw v) = .exactMatch v
    ∧ prepare_filter (.filt (.exactMatch v)) = .exactMatch v
    ∧ Not_mk (.raw v) = Not_mk (.filt (.exactMatch v))
    ∧ Optional_mk (.raw v) = Optional_mk (.filt (.exactMatch v))
    ∧ And_mk (.raw v :: xs) = And_mk (.filt (.exactMatch v) :: xs)
    ∧ Or_mk (.raw v :: xs) = Or_mk (.filt (.exactMatch v) :: xs)
    ∧ query ((attr, .raw v) :: rest)
        = query ((attr, .filt (.exactMatch v)) :: rest) := by
  refine ⟨rfl, rfl, rfl, rfl, rfl, rfl, rfl⟩

/-- C7 counterexample: the wire object `{"name": "comparison",
"comparator": "!", "value": "1"}` is well formed in the claim's sense
(known name, required keys present with the right types, no empty
combinator list), yet `filter_from_obj` fails on it: the `Comparison`
constructor rejects the operator while the tree is being built. -/
theorem filter_from_obj_claim_counterexample :
    wellFormedClaim (.dict [("name", .str "comparison"),
        ("comparator", .str "!"), ("value", .str "1")]) = true
    ∧ filter_from_obj (fun _ => true) (fun _ => none)
        (.dict [("name", .str "comparison"),
          ("comparator", .str "!"), ("value", .str "1")])
      = .error (.valueError "Invalid comparison operator: !") := by
  exact ⟨rfl, rfl⟩

/-- `isOkE` ignores the function applied by `Except.map`. -/
theorem isOkE_map {α β : Type} (g : α → β) (e : Except PyErr α) :
    isOkE (Except.map g e) = isOkE e := by
  cases e <;> rfl

/-- Leaf dispatch agreement: for every non-combinator class name, the
per-class parser succeeds exactly on the amended-well-formed leaf
bodies. -/
theorem leaf_fromObj_isOk (reOk : String → Bool)
    (parseNet : Value → Option Network) (fields : List (String × Value)) :
    isOkE (exactMatchFromObj fields)
      = wfAmendedLeaf reOk parseNet "exactmatch" fields
    ∧ isOkE (regexpFromObj reOk fields)
      = wfAmendedLeaf reOk parseNet "regexp" fields
    ∧ isOkE (comparisonFromObj fields)
      = wfAmendedLeaf reOk parseNet "comparison" fields
    ∧ isOkE (anyFromObj fields)
      = wfAmendedLeaf reOk parseNet "any" fields
    ∧ isOkE (betweenFromObj fields)
      = wfAmendedLeaf reOk parseNet "between" fields
    ∧ isOkE (startswithFromObj fields)
      = wfAmendedLeaf reOk parseNet "startswith" fields
    ∧ isOkE (insideNetworkFromObj parseNet fields)
      = wfAmendedLeaf reOk parseNet "insidenetwork" fields := by
  refine ⟨?_, ?_, ?_, ?_, ?_, ?_, ?_⟩
  · simp only [exactMatchFromObj, wfAmendedLeaf, String.reduceBEq,
      Bool.false_eq_true, if_false, if_true]
    cases hv : dictGet fields "value" <;> simp [hv, isOkE]
  · simp only [regexpFromObj, wfAmendedLeaf, String.reduceBEq,
      Bool.false_eq_true, if_false, if_true]
    cases hr : dictGet fields "regexp" with
    | none => simp [hr, isOkE]
    | some rv =>
      cases rv with
      | str r => cases hre : reOk r <;> simp [hr, hre, isOkE]
      | int n => simp [hr, isOkE]
      | bool b => simp [hr, isOkE]
      | ip n => simp [hr, isOkE]
      | list l => simp [hr, isOkE]
      | dict d => simp [hr, isOkE]
  · simp only [comparisonFromObj, wfAmendedLeaf, String.reduceBEq,
      Bool.false_eq_true, if_false, if_true]
    cases hc : dictGet fields "comparator" with
    | none => cases hv : dictGet fields "value" <;> simp [hc, hv, isOkE]
    | some cv =>
      cases hv : dictGet fields "value" with
      | none => cases cv <;> simp [hc, hv, isOkE]
      | some v =>
        cases cv with
        | str s =>
          cases hcv : Comparison_validOp s <;> simp [hc, hv, hcv, isOkE]
        | int n => simp [hc, hv, isOkE]
        | bool b => simp [hc, hv, isOkE]
        | ip n => simp [hc, hv, isOkE]
        | list l => simp [hc, hv, isOkE]
        | dict d => simp [hc, hv, isOkE]
  · simp only [anyFromObj, wfAmendedLeaf, String.reduceBEq,
      Bool.false_eq_true, if_false, if_true]
    cases hv : dictGet fields "values" with
    | none => simp [hv, isOkE]
    | some vv =>
      cases vv with
      | list vs =>
        cases hall : vs.all hashableValue <;>
          simp [hv, hall, isOkE, -List.all_eq_true]
      | str s => simp [hv, isOkE]
      | int n => simp [hv, isOkE]
      | bool b => simp [hv, isOkE]
      | ip n => simp [hv, isOkE]
      | dict d => simp [hv, isOkE]
  · simp only [betweenFromObj, wfAmendedLeaf, String.reduceBEq,
      Bool.false_eq_true, if_false, if_true]
    cases ha : dictGet fields "a" <;> cases hb : dictGet fields "b" <;>
      simp [ha, hb, isOkE]
  · simp only [startswithFromObj, wfAmendedLeaf, String.reduceBEq,
      Bool.false_eq_true, if_false, if_true]
    cases hv : dictGet fields "value" with
    | none => simp [hv, isStrOpt, isOkE]
    | some vv => cases vv <;> simp [hv, isStrOpt, isOkE]
  · simp only [insideNetworkFromObj, wfAmendedLeaf, String.reduceBEq,
      Bool.false_eq_true, if_false, if_true]
    cases hv : dictGet fields "networks" with
    | none => simp [hv, isOkE]
    | some vv =>
      cases vv with
      | list ns => cases hp : parseNets parseNet ns <;> simp [hv, hp, isOkE]
      | str s => simp [hv, isOkE]
      | int n => simp [hv, isOkE]
      | bool b => simp [hv, isOkE]
      | ip n => simp [hv, isOkE]
      | dict d => simp [hv, isOkE]

/-- Fueled parsing succeeds exactly on the fueled amended-well-formed
objects, at every fuel (the exhaustion cases agree by construction). -/
theorem fueled_parse_isOk (reOk : String → Bool)
    (parseNet : Value → Option Network) :
    ∀ fuel : Nat,
      (∀ obj : Value, isOkE (filter_from_obj_f reOk parseNet fuel obj)
          = wellFormedAmended_f reOk parseNet fuel obj)
      ∧ (∀ xs : List Value, isOkE (filters_from_objs_f reOk parseNet fuel xs)
          = wellFormedAmendedList_f reOk parseNet fuel xs) := by
  intro fuel
  induction fuel with
  | zero =>
    constructor
    · intro obj
      rfl
    · intro xs
      cases xs <;> rfl
  | succ fuel IH =>
    obtain ⟨IHobj, IHlist⟩ := IH
    constructor
    · intro obj
      cases obj with
      | str s => rfl
      | int n => rfl
      | bool b => rfl
      | ip n => rfl
      | list l => rfl
      | dict fields =>
        simp only [filter_from_obj_f, wellFormedAmended_f]
        cases hn : dictGet fields "name" with
        | none => rfl
        | some nv =>
        cases nv with
        | int n => rfl
        | bool b => rfl
        | ip n => rfl
        | list l => rfl
        | dict d => rfl
        | str name =>
        have hleaf := leaf_fromObj_isOk reOk parseNet fields
        by_cases e1 : name = "exactmatch"
        · subst e1
          simpa using hleaf.1
        by_cases e2 : name = "regexp"
        · subst e2
          simpa using hleaf.2.1
        by_cases e3 : name = "comparison"
        · subst e3
          simpa using hleaf.2.2.1
        by_cases e4 : name = "any"
        · subst e4
          simpa using hleaf.2.2.2.1
        by_cases e5 : name = "and"
        · subst e5
          simp only [String.reduceBEq, Bool.false_eq_true, Bool.true_or,
            Bool.or_false, Bool.false_or, if_false, if_true]
          cases hf : dictGet fields "filters" with
          | none => rfl
          | some fv =>
            cases fv with
            | list xs =>
              cases hxe : xs.isEmpty with
              | true => simp [hxe, isOkE]
              | false =>
                simp only [hxe, Bool.not_false, Bool.true_and,
                  Bool.false_eq_true, if_false]
                rw [isOkE_map]
                exact IHlist xs
            | str s => rfl
            | int n => rfl
            | bool b => rfl
            | ip n => rfl
            | dict d => rfl
        by_cases e6 : name = "or"
        · subst e6
          simp only [String.reduceBEq, Bool.false_eq_true, Bool.true_or,
            Bool.or_false, Bool.false_or, if_false, if_true]
          cases hf : dictGet fields "filters" with
          | none => rfl
          | some fv =>
            cases fv with
            | list xs =>
              cases hxe : xs.isEmpty with
              | true => simp [hxe, isOkE]
              | false =>
                simp only [hxe, Bool.not_false, Bool.true_and,
                  Bool.false_eq_true, if_false]
                rw [isOkE_map]
                exact IHlist xs
            | str s => rfl
            | int n => rfl
            | bool b => rfl
            | ip n => rfl
            | dict d => rfl
        by_cases e7 : name = "between"
        · subst e7
          simpa using hleaf.2.2.2.2.1
        by_cases e8 : name = "not"
        · subst e8
          simp only [String.reduceBEq, Bool.false_eq_true, Bool.true_or,
            Bool.or_false, Bool.false_or, if_false, if_true]
          cases hf : dictGet fields "filter" with
          | none => rfl
          | some child => simp [isOkE_map, IHobj child]
        by_cases e9 : name = "startswith"
        · subst e9
          simpa using hleaf.2.2.2.2.2.1
        by_cases e10 : name = "insidenetwork"
        · subst e10
          simpa using hleaf.2.2.2.2.2.2
        by_cases e11 : name = "privateip"
        · subst e11
          rfl
        by_cases e12 : name = "publicip"
        · subst e12
          rfl
        by_cases e13 : name = "optional"
        · subst e13
          simp only [String.reduceBEq, Bool.false_eq_true, Bool.true_or,
            Bool.or_false, Bool.false_or, if_false, if_true]
          cases hf : dictGet fields "filter" with
          | none => rfl
          | some child => simp [isOkE_map, IHobj child]
        by_cases e14 : name = "empty"
        · subst e14
          rfl
        · simp [e1, e2, e3, e4, e5, e6, e7, e8, e9, e10, e11, e12, e13,
            e14, isOkE, wfAmendedLeaf]
    · intro xs
      cases xs with
      | nil => rfl
      | cons x rest =>
        rw [filters_from_objs_f, wellFormedAmendedList_f]
        have IHx := IHobj x
        have IHr := IHlist rest
        cases hx : filter_from_obj_f reOk parseNet fuel x with
        | error e =>
          rw [hx] at IHx
          rw [← IHx]
          simp [isOkE]
        | ok f =>
          rw [hx] at IHx
          rw [← IHx]
          cases hr : filters_from_objs_f reOk parseNet fuel rest with
          | error e =>
            rw [hr] at IHr
            rw [← IHr]
            simp [isOkE]
          | ok fs =>
            rw [hr] at IHr
            rw [← IHr]
            simp [isOkE]

/-- Every wire value has positive size. -/
theorem valueSize_pos (v : Value) : 1 ≤ valueSize v := by
  cases v <;> simp [valueSize]

/-- Every wire-value list has positive size. -/
theorem valueListSize_pos (xs : List Value) : 1 ≤ valueListSize xs := by
  cases xs with
  | nil => simp [valueListSize]
  | cons x rest => simp [valueListSize]; omega

/-- A successful key lookup returns a value strictly smaller than the
enclosing dict (so the parser's recursion depth is bounded by
`valueSize`). -/
theorem dictGet_valueSize (k : String) (v : Value) :
    ∀ (fields : List (String × Value)), dictGet fields k = some v →
      valueSize v < valueSize (.dict fields) := by
  intro fields
  induction fields with
  | nil => intro h; simp [dictGet] at h
  | cons p rest ih =>
    intro h
    rw [dictGet] at h
    by_cases hp : (p.fst == k) = true
    · rw [if_pos hp] at h
      cases h
      simp [valueSize, fieldsSize]
      omega
    · rw [if_neg hp] at h
      have hlt := ih h
      simp [valueSize, fieldsSize] at hlt ⊢
      omega

/-- Fuel sufficiency: once the fuel is at least the object's size, the
fueled parser's result no longer depends on the fuel — so the wrapper
`filter_from_obj`, which supplies `valueSize obj`, computes the
fuel-free fixpoint of the source recursion. -/
theorem filter_from_obj_f_stable (reOk : String → Bool)
    (parseNet : Value → Option Network) :
    ∀ fuel : Nat,
      (∀ (g : Nat) (obj : Value), valueSize obj ≤ fuel → valueSize obj ≤ g →
        filter_from_obj_f reOk parseNet fuel obj
          = filter_from_obj_f reOk parseNet g obj)
      ∧ (∀ (g : Nat) (xs : List Value),
        valueListSize xs ≤ fuel → valueListSize xs ≤ g →
        filters_from_objs_f reOk parseNet fuel xs
          = filters_from_objs_f reOk parseNet g xs) := by
  intro fuel
  induction fuel with
  | zero =>
    constructor
    · intro g obj hf _
      exact absurd (Nat.le_trans (valueSize_pos obj) hf) (by decide)
    · intro g xs hf _
      exact absurd (Nat.le_trans (valueListSize_pos xs) hf) (by decide)
  | succ fuel IH =>
    obtain ⟨IHobj, IHlist⟩ := IH
    constructor
    · intro g obj hfuel hg
      cases g with
      | zero => exact absurd (Nat.le_trans (valueSize_pos obj) hg) (by decide)
      | succ g =>
        cases obj with
        | str s => rfl
        | int n => rfl
        | bool b => rfl
        | ip n => rfl
        | list l => rfl
        | dict fields =>
          rw [filter_from_obj_f]
          rw [filter_from_obj_f]
          cases hn : dictGet fields "name" with
          | none => rfl
          | some nv =>
          cases nv with
          | int n => rfl
          | bool b => rfl
          | ip n => rfl
          | list l => rfl
          | dict d => rfl
          | str name =>
          by_cases e1 : name = "exactmatch"
          · subst e1
            rfl
          by_cases e2 : name = "regexp"
          · subst e2
            simp [e1]
          by_cases e3 : name = "comparison"
          · subst e3
            simp [e1, e2]
          by_cases e4 : name = "any"
          · subst e4
            simp [e1, e2, e3]
          by_cases e5 : name = "and"
          · subst e5
            simp only [String.reduceBEq, Bool.false_eq_true, if_false,
              if_true]
            cases hf : dictGet fields "filters" with
            | none => rfl
            | some fv =>
              cases fv with
              | list xs =>
                have hxs : valueSize (Value.list xs)
                    < valueSize (Value.dict fields) :=
                  dictGet_valueSize _ _ fields hf
                simp only [valueSize] at hxs hfuel hg
                dsimp only
                rw [IHlist g xs (by omega) (by omega)]
              | str s => rfl
              | int n => rfl
              | bool b => rfl
              | ip n => rfl
              | dict d => rfl
          by_cases e6 : name = "or"
          · subst e6
            simp only [String.reduceBEq, Bool.false_eq_true, if_false,
              if_true]
            cases hf : dictGet fields "filters" with
            | none => rfl
            | some fv =>
              cases fv with
              | list xs =>
                have hxs : valueSize (Value.list xs)
                    < valueSize (Value.dict fields) :=
                  dictGet_valueSize _ _ fields hf
                simp only [valueSize] at hxs hfuel hg
                dsimp only
                rw [IHlist g xs (by omega) (by omega)]
              | str s => rfl
              | int n => rfl
              | bool b => rfl
              | ip n => rfl
              | dict d => rfl
          by_cases e7 : name = "between"
          · subst e7
            simp [e1, e2, e3, e4, e5, e6]
          by_cases e8 : name = "not"
          · subst e8
            simp only [String.reduceBEq, Bool.false_eq_true, if_false,
              if_true]
            cases hf : dictGet fields "filter" with
            | none => rfl
            | some child =>
              have hc : valueSize child < valueSize (Value.dict fields) :=
                dictGet_valueSize _ _ fields hf
              simp only [valueSize] at hc hfuel hg
              dsimp only
              rw [IHobj g child (by omega) (by omega)]
          by_cases e9 : name = "startswith"
          · subst e9
            simp [e1, e2, e3, e4, e5, e6, e7, e8]
          by_cases e10 : name = "insidenetwork"
          · subst e10
            simp [e1, e2, e3, e4, e5, e6, e7, e8, e9]
          by_cases e11 : name = "privateip"
          · subst e11
            rfl
          by_cases e12 : name = "publicip"
          · subst e12
            rfl
          by_cases e13 : name = "optional"
          · subst e13
            simp only [String.reduceBEq, Bool.false_eq_true, if_false,
              if_true]
            cases hf : dictGet fields "filter" with
            | none => rfl
            | some child =>
              have hc : valueSize child < valueSize (Value.dict fields) :=
                dictGet_valueSize _ _ fields hf
              simp only [valueSize] at hc hfuel hg
              dsimp only
              rw [IHobj g child (by omega) (by omega)]
          by_cases e14 : name = "empty"
          · subst e14
            rfl
          · simp [e1, e2, e3, e4, e5, e6, e7, e8, e9, e10, e11, e12, e13,
              e14]
    · intro g xs hfuel hg
      cases g with
      | zero => exact absurd (Nat.le_trans (valueListSize_pos xs) hg) (by decide)
      | succ g =>
        cases xs with
        | nil => rfl
        | cons x rest =>
          rw [filters_from_objs_f]
          rw [filters_from_objs_f]
          simp only [valueListSize] at hfuel hg
          have hx : valueSize x ≤ fuel ∧ valueSize x ≤ g := by
            have := valueListSize_pos rest
            omega
          have hrest : valueListSize rest ≤ fuel ∧ valueListSize rest ≤ g := by
            have := valueSize_pos x
            omega
          rw [IHobj g x hx.1 hx.2, IHlist g rest hrest.1 hrest.2]

/-- C7 amended: `filter_from_obj` returns the filter tree of a
well-formed wire object — in particular scenario D parses to
`And(ExactMatch("x"), Startswith("y"))` — and fails exactly when the
object is malformed in the claim's sense **or** a construction-time
validation rejects an operand: a comparison operator outside
`{<, >, <=, >=}`, a regexp that does not compile, an entry of
`networks` that does not parse as a network, or an unhashable element
among `any`'s values. -/
theorem filter_from_obj_amended_spec :
    (∀ (reOk : String → Bool) (parseNet : Value → Option Network)
        (obj : Value),
      isOkE (filter_from_obj reOk parseNet obj)
        = wellFormedAmended reOk parseNet obj)
    ∧ (∀ (reOk : String → Bool) (parseNet : Value → Option Network),
      filter_from_obj reOk parseNet
          (.dict [("name", .str "and"),
            ("filters", .list
              [.dict [("name", .str "exactmatch"), ("value", .str "x")],
               .dict [("name", .str "startswith"), ("value", .str "y")]])])
        = .ok (.andF [.exactMatch (.str "x"), .startswith (.str "y")])) := by
  constructor
  · intro reOk parseNet obj
    exact (fueled_parse_isOk reOk parseNet (valueSize obj)).1 obj
  · intro reOk parseNet
    rfl

end Serveradmin
